import Mathlib

set_option maxRecDepth 100000

/-!
Verification development for the django-oscar-adyen payment plugin.

The Python modules adyen/gateway.py, adyen/signers.py, adyen/facade.py and
adyen/scaffold.py are shallowly embedded below: flat request or response
messages become association lists from field names to string values, the
hashlib/hmac/base64/binascii primitives are implemented over lists of byte
values (Nat below 256), and Python exceptions become an explicit error type
threaded through Except.  Dictionary iteration follows insertion order, as
CPython guarantees, so list order in the embedding mirrors dict order of the
source.
-/

/- ---------------------------------------------------------------- -/
/- Byte strings and text encodings                                   -/
/- ---------------------------------------------------------------- -/

/-- A byte string: a list of byte values (each below 256). -/
abbrev Bytes := List Nat

/-- UTF-8 encoding of a single Unicode code point, as in CPython
str.encode of a one character string. -/
def utf8EncodeChar (n : Nat) : Bytes :=
  if n < 128 then [n]
  else if n < 2048 then
    [192 ||| (n >>> 6), 128 ||| (n &&& 63)]
  else if n < 65536 then
    [224 ||| (n >>> 12), 128 ||| ((n >>> 6) &&& 63), 128 ||| (n &&& 63)]
  else
    [240 ||| (n >>> 18), 128 ||| ((n >>> 12) &&& 63),
     128 ||| ((n >>> 6) &&& 63), 128 ||| (n &&& 63)]

/-- Python str.encode with the utf-8 codec. -/
def utf8 (s : String) : Bytes :=
  s.data.foldr (fun c acc => utf8EncodeChar c.toNat ++ acc) []

/-- Value of one hexadecimal digit character, as accepted by
binascii.a2b_hex. -/
def hexDigitVal (c : Char) : Nat :=
  if c.toNat ≥ 48 ∧ c.toNat ≤ 57 then c.toNat - 48
  else if c.toNat ≥ 97 ∧ c.toNat ≤ 102 then c.toNat - 87
  else if c.toNat ≥ 65 ∧ c.toNat ≤ 70 then c.toNat - 55
  else 0

/-- Pair up hex digits into bytes; the fuel argument makes the recursion
structural.  Called with fuel equal to the character count. -/
def hexPairs (fuel : Nat) (cs : List Char) : Bytes :=
  match fuel with
  | 0 => []
  | fuel + 1 =>
    match cs with
    | a :: b :: rest => (16 * hexDigitVal a + hexDigitVal b) :: hexPairs fuel rest
    | _ => []

/-- Python binascii.a2b_hex: decode a hex string into bytes. -/
def hexDecode (s : String) : Bytes :=
  hexPairs s.length s.data

/- ---------------------------------------------------------------- -/
/- 32-bit word helpers over Nat                                      -/
/- ---------------------------------------------------------------- -/

/-- Truncate to a 32-bit word. -/
def w32 (n : Nat) : Nat := n % 4294967296

/-- Rotate a 32-bit word left by k bits. -/
def rotl32 (k x : Nat) : Nat := w32 ((x <<< k) ||| (x >>> (32 - k)))

/-- Rotate a 32-bit word right by k bits. -/
def rotr32 (k x : Nat) : Nat := w32 ((x >>> k) ||| (x <<< (32 - k)))

/-- Big-endian bytes of a 32-bit word. -/
def be32 (n : Nat) : Bytes :=
  [(n >>> 24) &&& 255, (n >>> 16) &&& 255, (n >>> 8) &&& 255, n &&& 255]

/-- Big-endian bytes of a 64-bit length field. -/
def be64 (n : Nat) : Bytes :=
  [(n >>> 56) &&& 255, (n >>> 48) &&& 255, (n >>> 40) &&& 255, (n >>> 32) &&& 255,
   (n >>> 24) &&& 255, (n >>> 16) &&& 255, (n >>> 8) &&& 255, n &&& 255]

/-- Merkle-Damgard padding common to SHA-1 and SHA-256: append bit 0x80,
zero bytes up to 56 modulo 64, then the message bit length on 64 bits. -/
def mdPad (msg : Bytes) : Bytes :=
  msg ++ 128 :: List.replicate ((119 - msg.length % 64) % 64) 0 ++ be64 (8 * msg.length)

/-- Split into 64-byte blocks; fuel-driven structural recursion. -/
def splitBlocks (fuel : Nat) (l : Bytes) : List Bytes :=
  match fuel with
  | 0 => []
  | fuel + 1 =>
    if l.isEmpty then [] else l.take 64 :: splitBlocks fuel (l.drop 64)

/-- Word i of a 64-byte block, big endian. -/
def blockWord (block : Bytes) (i : Nat) : Nat :=
  (block.getD (4 * i) 0) <<< 24 ||| (block.getD (4 * i + 1) 0) <<< 16 |||
  (block.getD (4 * i + 2) 0) <<< 8 ||| block.getD (4 * i + 3) 0

/- ---------------------------------------------------------------- -/
/- SHA-1 (hashlib.sha1)                                              -/
/- ---------------------------------------------------------------- -/

/-- Extend the message words towards the 80-entry SHA-1 schedule,
keeping the accumulator most recent first, so that the words 3, 8, 14
and 16 positions back sit at indices 2, 7, 13 and 15. -/
def sha1ScheduleRev (fuel : Nat) (acc : List Nat) : List Nat :=
  match fuel with
  | 0 => acc
  | fuel + 1 =>
    sha1ScheduleRev fuel
      (rotl32 1 (acc.getD 2 0 ^^^ acc.getD 7 0 ^^^ acc.getD 13 0 ^^^ acc.getD 15 0)
        :: acc)

/-- The 80-entry SHA-1 message schedule from the 16 block words. -/
def sha1Schedule (ws : List Nat) : List Nat :=
  (sha1ScheduleRev 64 ws.reverse).reverse

/-- The SHA-1 round function f with its round constant, by round index. -/
def sha1F (t b c d : Nat) : Nat × Nat :=
  if t < 20 then ((b &&& c) ||| ((4294967295 ^^^ b) &&& d), 1518500249)
  else if t < 40 then (b ^^^ c ^^^ d, 1859775393)
  else if t < 60 then ((b &&& c) ||| (b &&& d) ||| (c &&& d), 2400959708)
  else (b ^^^ c ^^^ d, 3395469782)

/-- The 80 SHA-1 rounds, folding over the schedule words. -/
def sha1Rounds (t : Nat) (ws : List Nat) (st : Nat × Nat × Nat × Nat × Nat) :
    Nat × Nat × Nat × Nat × Nat :=
  match ws with
  | [] => st
  | w :: rest =>
    match st with
    | (a, b, c, d, e) =>
      let fk := sha1F t b c d
      let temp := w32 (rotl32 5 a + fk.1 + e + fk.2 + w)
      sha1Rounds (t + 1) rest (temp, a, rotl32 30 b, c, d)

/-- SHA-1 compression of one 64-byte block into the running state. -/
def sha1Compress (h : List Nat) (block : Bytes) : List Nat :=
  let ws := sha1Schedule ((List.range 16).map (blockWord block))
  let st := sha1Rounds 0 ws (h.getD 0 0, h.getD 1 0, h.getD 2 0, h.getD 3 0, h.getD 4 0)
  [w32 (h.getD 0 0 + st.1), w32 (h.getD 1 0 + st.2.1), w32 (h.getD 2 0 + st.2.2.1),
   w32 (h.getD 3 0 + st.2.2.2.1), w32 (h.getD 4 0 + st.2.2.2.2)]

/-- SHA-1 digest (20 bytes) of a byte string. -/
def sha1 (msg : Bytes) : Bytes :=
  let padded := mdPad msg
  let hs := (splitBlocks (padded.length + 1) padded).foldl sha1Compress
    [1732584193, 4023233417, 2562383102, 271733878, 3285377520]
  hs.foldr (fun wd acc => be32 wd ++ acc) []

/- ---------------------------------------------------------------- -/
/- SHA-256 (hashlib.sha256)                                          -/
/- ---------------------------------------------------------------- -/

/-- The 64 SHA-256 round constants. -/
def sha256K : List Nat :=
  [1116352408, 1899447441, 3049323471, 3921009573, 961987163, 1508970993,
   2453635748, 2870763221, 3624381080, 310598401, 607225278, 1426881987,
   1925078388, 2162078206, 2614888103, 3248222580, 3835390401, 4022224774,
   264347078, 604807628, 770255983, 1249150122, 1555081692, 1996064986,
   2554220882, 2821834349, 2952996808, 3210313671, 3336571891, 3584528711,
   113926993, 338241895, 666307205, 773529912, 1294757372, 1396182291,
   1695183700, 1986661051, 2177026350, 2456956037, 2730485921, 2820302411,
   3259730800, 3345764771, 3516065817, 3600352804, 4094571909, 275423344,
   430227734, 506948616, 659060556, 883997877, 958139571, 1322822218,
   1537002063, 1747873779, 1955562222, 2024104815, 2227730452, 2361852424,
   2428436474, 2756734187, 3204031479, 3329325298]

/-- Extend the message words towards the 64-entry SHA-256 schedule,
keeping the accumulator most recent first, so that the words 2, 7, 15
and 16 positions back sit at indices 1, 6, 14 and 15. -/
def sha256ScheduleRev (fuel : Nat) (acc : List Nat) : List Nat :=
  match fuel with
  | 0 => acc
  | fuel + 1 =>
    let w15 := acc.getD 14 0
    let w2 := acc.getD 1 0
    let s0 := rotr32 7 w15 ^^^ rotr32 18 w15 ^^^ (w15 >>> 3)
    let s1 := rotr32 17 w2 ^^^ rotr32 19 w2 ^^^ (w2 >>> 10)
    sha256ScheduleRev fuel (w32 (acc.getD 15 0 + s0 + acc.getD 6 0 + s1) :: acc)

/-- The 64-entry SHA-256 message schedule from the 16 block words. -/
def sha256Schedule (ws : List Nat) : List Nat :=
  (sha256ScheduleRev 48 ws.reverse).reverse

/-- The 64 SHA-256 rounds, folding over the schedule and round-constant
words in parallel. -/
def sha256Rounds (ws ks : List Nat)
    (st : Nat × Nat × Nat × Nat × Nat × Nat × Nat × Nat) :
    Nat × Nat × Nat × Nat × Nat × Nat × Nat × Nat :=
  match ws, ks with
  | w :: wrest, k :: krest =>
    match st with
    | (a, b, c, d, e, f, g, h) =>
      let s1 := rotr32 6 e ^^^ rotr32 11 e ^^^ rotr32 25 e
      let ch := (e &&& f) ^^^ ((4294967295 ^^^ e) &&& g)
      let temp1 := w32 (h + s1 + ch + k + w)
      let s0 := rotr32 2 a ^^^ rotr32 13 a ^^^ rotr32 22 a
      let maj := (a &&& b) ^^^ (a &&& c) ^^^ (b &&& c)
      let temp2 := w32 (s0 + maj)
      sha256Rounds wrest krest
        (w32 (temp1 + temp2), a, b, c, w32 (d + temp1), e, f, g)
  | _, _ => st

/-- SHA-256 compression of one 64-byte block into the running state. -/
def sha256Compress (h : List Nat) (block : Bytes) : List Nat :=
  let ws := sha256Schedule ((List.range 16).map (blockWord block))
  let st := sha256Rounds ws sha256K
    (h.getD 0 0, h.getD 1 0, h.getD 2 0, h.getD 3 0,
     h.getD 4 0, h.getD 5 0, h.getD 6 0, h.getD 7 0)
  [w32 (h.getD 0 0 + st.1), w32 (h.getD 1 0 + st.2.1), w32 (h.getD 2 0 + st.2.2.1),
   w32 (h.getD 3 0 + st.2.2.2.1), w32 (h.getD 4 0 + st.2.2.2.2.1),
   w32 (h.getD 5 0 + st.2.2.2.2.2.1), w32 (h.getD 6 0 + st.2.2.2.2.2.2.1),
   w32 (h.getD 7 0 + st.2.2.2.2.2.2.2)]

/-- SHA-256 digest (32 bytes) of a byte string. -/
def sha256 (msg : Bytes) : Bytes :=
  let padded := mdPad msg
  let hs := (splitBlocks (padded.length + 1) padded).foldl sha256Compress
    [1779033703, 3144134277, 1013904242, 2773480762,
     1359893119, 2600822924, 528734635, 1541459225]
  hs.foldr (fun wd acc => be32 wd ++ acc) []

/- ---------------------------------------------------------------- -/
/- HMAC (hmac.new) and base64                                        -/
/- ---------------------------------------------------------------- -/

/-- HMAC with a 64-byte block size, as hmac.new for SHA-1 and SHA-256. -/
def hmacBytes (hash : Bytes → Bytes) (key msg : Bytes) : Bytes :=
  let k0 := if 64 < key.length then hash key else key
  let k := k0 ++ List.replicate (64 - k0.length) 0
  hash ((k.map (fun b => b ^^^ 92)) ++ hash ((k.map (fun b => b ^^^ 54)) ++ msg))

/-- HMAC-SHA1 digest. -/
def hmacSha1 (key msg : Bytes) : Bytes := hmacBytes sha1 key msg

/-- HMAC-SHA256 digest. -/
def hmacSha256 (key msg : Bytes) : Bytes := hmacBytes sha256 key msg

/-- The base64 alphabet. -/
def b64Alphabet : List Char :=
  "ABCDEFGHIJKLMNOPQRSTUVWXYZabcdefghijklmnopqrstuvwxyz0123456789+/".data

/-- Encode three-byte groups into base64 characters, with = padding;
fuel-driven structural recursion. -/
def b64Groups (fuel : Nat) (l : Bytes) : List Char :=
  match fuel with
  | 0 => []
  | fuel + 1 =>
    match l with
    | [] => []
    | b0 :: rest =>
      let g := b0 :: rest.take 2
      let n := (g.getD 0 0) <<< 16 ||| (g.getD 1 0) <<< 8 ||| g.getD 2 0
      let c0 := b64Alphabet.getD ((n >>> 18) &&& 63) 'A'
      let c1 := b64Alphabet.getD ((n >>> 12) &&& 63) 'A'
      let c2 := b64Alphabet.getD ((n >>> 6) &&& 63) 'A'
      let c3 := b64Alphabet.getD (n &&& 63) 'A'
      (if g.length = 1 then [c0, c1, '=', '=']
       else if g.length = 2 then [c0, c1, c2, '=']
       else [c0, c1, c2, c3]) ++ b64Groups fuel (rest.drop 2)

/-- Python base64.b64encode, decoded to str: plain base64 with no line
breaks. -/
def base64Encode (l : Bytes) : String :=
  String.mk (b64Groups (l.length + 1) l)

/-- Successive 57-byte chunks, each base64-encoded and newline-terminated;
fuel-driven structural recursion. -/
def encodebytesChunks (fuel : Nat) (l : Bytes) : String :=
  match fuel with
  | 0 => ""
  | fuel + 1 =>
    if l.isEmpty then ""
    else base64Encode (l.take 57) ++ "\n" ++ encodebytesChunks fuel (l.drop 57)

/-- Python base64.encodebytes, decoded to str: base64 in lines of at most
76 characters, every line newline-terminated. -/
def encodebytes (l : Bytes) : String :=
  encodebytesChunks (l.length + 1) l

/-- Python str.strip whitespace test (the six ASCII whitespace
characters; the inputs stripped here are base64 text, so the non-ASCII
Python spaces never occur). -/
def isPySpace (c : Char) : Bool :=
  c == ' ' || c == '\t' || c == '\n' || c == '\x0d' || c == '\x0b' || c == '\x0c'

/-- Python str.strip with no argument: remove leading and trailing
whitespace. -/
def stripStr (s : String) : String :=
  String.mk (((s.data.dropWhile isPySpace).reverse.dropWhile isPySpace).reverse)

/- ---------------------------------------------------------------- -/
/- Flat messages (Python dict of form or query parameters)           -/
/- ---------------------------------------------------------------- -/

/-- A flat message: field names mapped to string values, in insertion
order.  Python dict keys are unique; the lookup below returns the first
binding, which coincides with dict lookup on faithfully built messages.
Integer values given to the Python API are modelled already stringified,
as every use site passes them through str. -/
abbrev Msg := List (String × String)

/-- Python params.get(key): the first binding of the key, if any. -/
def msgGet? (m : Msg) (k : String) : Option String :=
  (m.find? (fun kv => kv.1 == k)).map (fun kv => kv.2)

/-- Python params.get(key, default). -/
def msgGetD (m : Msg) (k d : String) : String :=
  (msgGet? m k).getD d

/-- Python list(params.keys()), in insertion order. -/
def msgKeys (m : Msg) : List String :=
  m.map (fun kv => kv.1)

/-- Python key in params. -/
def msgContains (m : Msg) (k : String) : Bool :=
  (msgGet? m k).isSome

/-- Python substring containment helper: does the character list start
with the pattern. -/
def charsStartWith : List Char → List Char → Bool
  | _, [] => true
  | [], _ :: _ => false
  | c :: cs, d :: ds => c == d && charsStartWith cs ds

/-- Python substring containment helper over character lists. -/
def charsContain : List Char → List Char → Bool
  | [], pat => pat.isEmpty
  | c :: cs, pat => charsStartWith (c :: cs) pat || charsContain cs pat

/-- The Python expression sub in s on strings. -/
def strContains (s sub : String) : Bool :=
  charsContain s.data sub.data

/-- Join a list of strings with a separator, as Python sep.join. -/
def joinSep (sep : String) : List String → String
  | [] => ""
  | [x] => x
  | x :: y :: xs => x ++ sep ++ joinSep sep (y :: xs)

/-- Python "".join, the special case with the empty separator. -/
def joinStr (l : List String) : String :=
  l.foldl (fun a b => a ++ b) ""

/- ---------------------------------------------------------------- -/
/- adyen/gateway.py: exceptions, constants and field schemas          -/
/- ---------------------------------------------------------------- -/

/-- The Python exceptions raised by the embedded code paths.
MissingFieldException, UnexpectedFieldException and
InvalidTransactionException come from adyen/gateway.py; keyError stands
for the builtin KeyError (including its Django MultiValueDictKeyError
subclass) escaping an unguarded dictionary lookup. -/
inductive GatewayError where
  | missingField (field : String)
  | unexpectedField (field : String)
  | invalidTransaction
  | keyError (key : String)
deriving DecidableEq, Repr

/-- The two HMAC algorithm variants selected by the hmacAlgorithm
gateway setting. -/
inductive HmacAlgorithm where
  | SHA1
  | SHA256
deriving DecidableEq, Repr

/-- Gateway configuration: the mandatory settings of gateway.Gateway
that the embedded paths consume. -/
structure GatewayConfig where
  secretKey : String
  actionUrl : String
  hmacAlgorithm : HmacAlgorithm
deriving DecidableEq, Repr

/-- BasePaymentRedirection.REQUIRED_FIELDS. -/
def PAYMENT_REDIRECTION_REQUIRED_FIELDS : List String :=
  ["authResult", "merchantReference", "merchantSig", "shopperLocale", "skinCode"]

/-- BasePaymentRedirection.OPTIONAL_FIELDS. -/
def PAYMENT_REDIRECTION_OPTIONAL_FIELDS : List String :=
  ["merchantReturnData", "paymentMethod", "pspReference"]

/-- PaymentRedirectionSHA1.HASH_KEYS. -/
def PAYMENT_REDIRECTION_SHA1_HASH_KEYS : List String :=
  ["authResult", "pspReference", "merchantReference", "skinCode", "merchantReturnData"]

/-- PaymentRedirectionSHA256.HASH_KEYS. -/
def PAYMENT_REDIRECTION_SHA256_HASH_KEYS : List String :=
  ["authResult", "merchantReference", "merchantReturnData", "paymentMethod",
   "pspReference", "shopperLocale", "skinCode"]

/-- BasePaymentNotification.REQUIRED_FIELDS. -/
def PAYMENT_NOTIFICATION_REQUIRED_FIELDS : List String :=
  ["currency", "eventCode", "eventDate", "live", "merchantAccountCode",
   "merchantReference", "paymentMethod", "pspReference", "reason", "success",
   "value"]

/-- BasePaymentNotification.OPTIONAL_FIELDS. -/
def PAYMENT_NOTIFICATION_OPTIONAL_FIELDS : List String :=
  ["operations", "originalReference"]

/-- PaymentFormRequest.HASH_KEYS in gateway.py, identical to
HMACSha1.PAYMENT_FORM_HASH_KEYS in signers.py: the fixed payment-form
signing key order. -/
def PAYMENT_FORM_HASH_KEYS : List String :=
  ["paymentAmount", "currencyCode", "shipBeforeDate", "merchantReference",
   "skinCode", "merchantAccount", "sessionValidity", "shopperEmail",
   "shopperReference", "recurringContract", "allowedMethods", "blockedMethods",
   "shopperStatement", "merchantReturnData", "billingAddressType",
   "deliveryAddressType", "shopperType", "offset"]

/-- HMACSha1.PAYMENT_DELIVERY_HASH_KEYS. -/
def PAYMENT_DELIVERY_HASH_KEYS : List String :=
  ["deliveryAddress.street", "deliveryAddress.houseNumberOrName",
   "deliveryAddress.city", "deliveryAddress.postalCode",
   "deliveryAddress.stateOrProvince", "deliveryAddress.country"]

/-- HMACSha1.PAYMENT_BILLING_HASH_KEYS. -/
def PAYMENT_BILLING_HASH_KEYS : List String :=
  ["billingAddress.street", "billingAddress.houseNumberOrName",
   "billingAddress.city", "billingAddress.postalCode",
   "billingAddress.stateOrProvince", "billingAddress.country"]

/-- HMACSha1.PAYMENT_SHOPPER_HASH_KEYS. -/
def PAYMENT_SHOPPER_HASH_KEYS : List String :=
  ["shopper.firstName", "shopper.infix", "shopper.lastName", "shopper.gender",
   "shopper.dateOfBirthDayOfMonth", "shopper.dateOfBirthMonth",
   "shopper.dateOfBirthYear", "shopper.telephoneNumber"]

/-- HMACSha1.PAYMENT_RETURN_HASH_KEYS, the result-signature key order of
the legacy signer, identical to PaymentRedirectionSHA1.HASH_KEYS. -/
def PAYMENT_RETURN_HASH_KEYS : List String :=
  PAYMENT_REDIRECTION_SHA1_HASH_KEYS

/- ---------------------------------------------------------------- -/
/- adyen/gateway.py: signature strings, hashes and field validation   -/
/- ---------------------------------------------------------------- -/

/-- BaseInteraction._compute_signature: the legacy signing string, the
values of the listed keys concatenated with no separator, an absent key
contributing the empty string. -/
def computeSignatureLegacy (keys : List String) (params : Msg) : String :=
  joinStr (keys.map (fun k => msgGetD params k ""))

/-- PaymentRedirectionSHA256._compute_signature: the SHA-256 signing
string, the key names then the values joined with the colon separator,
an absent key contributing the empty string. -/
def computeSignatureSHA256 (keys : List String) (params : Msg) : String :=
  joinSep ":" (keys ++ keys.map (fun k => msgGetD params k ""))

/-- Gateway._compute_hash: base64 of the HMAC digest of the signing
string, stripped.  The SHA-1 branch keys the HMAC with the UTF-8 bytes
of the secret; the SHA-256 branch keys it with the hex-decoded secret. -/
def computeHash (cfg : GatewayConfig) (signature : String) : String :=
  match cfg.hmacAlgorithm with
  | .SHA1 => stripStr (base64Encode (hmacSha1 (utf8 cfg.secretKey) (utf8 signature)))
  | .SHA256 => stripStr (base64Encode (hmacSha256 (hexDecode cfg.secretKey) (utf8 signature)))

/-- BaseResponse.hash for the two redirection classes: the signing string
over the per-algorithm HASH_KEYS, hashed by the gateway. -/
def redirectionHash (cfg : GatewayConfig) (params : Msg) : String :=
  match cfg.hmacAlgorithm with
  | .SHA1 =>
    computeHash cfg (computeSignatureLegacy PAYMENT_REDIRECTION_SHA1_HASH_KEYS params)
  | .SHA256 =>
    computeHash cfg (computeSignatureSHA256 PAYMENT_REDIRECTION_SHA256_HASH_KEYS params)

/-- PaymentFormRequest.hash: the payment form does not override
_compute_signature, so even under the SHA-256 algorithm its signing
string is the legacy concatenation over PAYMENT_FORM_HASH_KEYS. -/
def paymentFormHash (cfg : GatewayConfig) (params : Msg) : String :=
  computeHash cfg (computeSignatureLegacy PAYMENT_FORM_HASH_KEYS params)

/-- First required field that Python bool finds falsy: absent (None) or
the empty string. -/
def firstMissingField (required : List String) (params : Msg) : Option String :=
  required.find? (fun f => msgGetD params f "" == "")

/-- First present field name outside the expected list, in insertion
order. -/
def firstUnexpectedField (expected : List String) (params : Msg) : Option String :=
  (msgKeys params).find? (fun k => !decide (k ∈ expected))

/-- BaseInteraction.check_fields: raise MissingFieldException on the
first required field that is absent or empty, then
UnexpectedFieldException on the first present field outside
required plus optional. -/
def checkFields (required optional : List String) (params : Msg) :
    Except GatewayError Unit :=
  match firstMissingField required params with
  | some f => .error (.missingField f)
  | none =>
    match firstUnexpectedField (required ++ optional) params with
    | some k => .error (.unexpectedField k)
    | none => .ok ()

/-- BasePaymentNotification.check_fields: drop every key containing the
additionalData. marker (a substring test in the source), then run the
base field check against the notification schema. -/
def stripAdditionalData (params : Msg) : Msg :=
  params.filter (fun kv => !(strContains kv.1 "additionalData."))

/-- Field validation of a payment notification. -/
def notificationCheckFields (params : Msg) : Except GatewayError Unit :=
  checkFields PAYMENT_NOTIFICATION_REQUIRED_FIELDS
    PAYMENT_NOTIFICATION_OPTIONAL_FIELDS (stripAdditionalData params)

/-- BasePaymentRedirection.validate: the base field check against the
redirection schema, then the tamper check comparing the supplied
merchantSig with the recomputed hash.  The Python guard raises when the
received hash is falsy (absent or empty) or differs from the expected
hash. -/
def validateRedirection (cfg : GatewayConfig) (params : Msg) :
    Except GatewayError Unit :=
  match checkFields PAYMENT_REDIRECTION_REQUIRED_FIELDS
    PAYMENT_REDIRECTION_OPTIONAL_FIELDS params with
  | .error e => .error e
  | .ok () =>
    if msgGetD params "merchantSig" "" == "" ||
        redirectionHash cfg params != msgGetD params "merchantSig" "" then
      .error .invalidTransaction
    else
      .ok ()

/-- BasePaymentRedirection.process: an unguarded dictionary lookup of
authResult, then accepted iff the result equals AUTHORISED, the raw
result carried as the status. -/
def redirectionProcess (params : Msg) :
    Except GatewayError (Bool × String × Msg) :=
  match msgGet? params "authResult" with
  | none => .error (.keyError "authResult")
  | some result => .ok (result == "AUTHORISED", result, params)

/-- BasePaymentNotification.process: accepted iff the success field
equals the literal true, the status forced to AUTHORISED or REFUSED. -/
def notificationProcess (params : Msg) : Bool × String × Msg :=
  let accepted := msgGet? params "success" == some "true"
  (accepted, if accepted then "AUTHORISED" else "REFUSED", params)

/- ---------------------------------------------------------------- -/
/- adyen/signers.py: the legacy HMACSha1 signer                       -/
/- ---------------------------------------------------------------- -/

/-- HMACSha1.compute_hash: HMAC-SHA1 keyed with the UTF-8 bytes of the
raw secret over the UTF-8 signing string, passed through
base64.encodebytes and stripped. -/
def sha1ComputeHash (secretKey signature : String) : String :=
  stripStr (encodebytes (hmacSha1 (utf8 secretKey) (utf8 signature)))

/-- Truthiness of the Python intersection of a key tuple with the
fields: at least one of the keys is present. -/
def anyKeyPresent (keys : List String) (fields : Msg) : Bool :=
  keys.any (fun k => msgContains fields k)

/-- HMACSha1.sign: always the merchantSig over the payment-form key
order; the delivery, billing and shopper signatures only when at least
one key of the sub-group (or, for the shopper, the standalone
shopperType field) is present. -/
def sha1Sign (secretKey : String) (fields : Msg) : Msg :=
  let signFields := [("merchantSig",
    sha1ComputeHash secretKey (computeSignatureLegacy PAYMENT_FORM_HASH_KEYS fields))]
  let signFields := if anyKeyPresent PAYMENT_DELIVERY_HASH_KEYS fields then
    signFields ++ [("deliveryAddressSig",
      sha1ComputeHash secretKey (computeSignatureLegacy PAYMENT_DELIVERY_HASH_KEYS fields))]
    else signFields
  let signFields := if anyKeyPresent PAYMENT_BILLING_HASH_KEYS fields then
    signFields ++ [("billingAddressSig",
      sha1ComputeHash secretKey (computeSignatureLegacy PAYMENT_BILLING_HASH_KEYS fields))]
    else signFields
  if anyKeyPresent PAYMENT_SHOPPER_HASH_KEYS fields || msgContains fields "shopperType" then
    signFields ++ [("shopperSig",
      sha1ComputeHash secretKey (computeSignatureLegacy PAYMENT_SHOPPER_HASH_KEYS fields))]
  else signFields

/-- HMACSha1.verify: when a merchantSig field is present, compare it with
the hash of the result-signature string; otherwise report success. -/
def sha1Verify (secretKey : String) (fields : Msg) : Bool :=
  if msgContains fields "merchantSig" then
    msgGetD fields "merchantSig" "" ==
      sha1ComputeHash secretKey (computeSignatureLegacy PAYMENT_RETURN_HASH_KEYS fields)
  else true

/- ---------------------------------------------------------------- -/
/- adyen/signers.py: the SHA-256 signer, absent from the sources      -/
/- ---------------------------------------------------------------- -/

/-- Lexicographic comparison of character lists by code point. -/
def charsLeB : List Char → List Char → Bool
  | [], _ => true
  | _ :: _, [] => false
  | c :: cs, d :: ds =>
    if c.toNat < d.toNat then true
    else if d.toNat < c.toNat then false
    else charsLeB cs ds

/-- Lexicographic byte-order comparison of strings, the ordering Python
sorted uses on ASCII field names. -/
def strLeB (a b : String) : Bool :=
  charsLeB a.data b.data

/-- Insertion into a list sorted by the string comparison. -/
def insertSorted (x : String) : List String → List String
  | [] => [x]
  | y :: ys => if strLeB x y then x :: y :: ys else y :: insertSorted x ys

/-- Insertion sort of field names. -/
def sortStrings (l : List String) : List String :=
  l.foldr insertSorted []

/-- Modelled from the spec: the class HMACSha256 of adyen/signers.py is
missing from the sources (only tests/test_signers_sha256.py imports it).
Following section 4.2, current variant: the canonical string is the
ordered list of key names followed by the ordered list of stringified
values, all joined with the single colon separator; the HMAC key is the
hex-decoded secret and the digest is base64-encoded.  The spec fixes no
key order beyond ordered, and the vendor sample orders the present field
names alphabetically, so the present keys are sorted. -/
def sha256SignSpec (secretKey : String) (fields : Msg) : Msg :=
  let ks := sortStrings (msgKeys fields)
  let signature := joinSep ":" (ks ++ ks.map (fun k => msgGetD fields k ""))
  [("merchantSig", base64Encode (hmacSha256 (hexDecode secretKey) (utf8 signature)))]

/-- Escape a signing-string component as the vendor SHA-256 scheme
demands: a backslash doubles and a colon becomes backslash colon. -/
def escapeSha256Component (s : String) : String :=
  String.mk (s.data.foldr
    (fun c acc =>
      if c == '\\' then '\\' :: '\\' :: acc
      else if c == ':' then '\\' :: ':' :: acc
      else c :: acc) [])

/-- Modelled from the spec and the vendor sample: as sha256SignSpec but
with every key name and value escaped before joining, the construction
that reproduces the vendor-documented sample signature. -/
def sha256SignEscaped (secretKey : String) (fields : Msg) : Msg :=
  let ks := sortStrings (msgKeys fields)
  let signature := joinSep ":"
    ((ks ++ ks.map (fun k => msgGetD fields k "")).map escapeSha256Component)
  [("merchantSig", base64Encode (hmacSha256 (hexDecode secretKey) (utf8 signature)))]

/- ---------------------------------------------------------------- -/
/- adyen/facade.py: the notification relevance filter                 -/
/- ---------------------------------------------------------------- -/

/-- A Django HTTP request as the relevance filter reads it: the method
and the POST parameters. -/
structure HttpRequest where
  method : String
  post : Msg
deriving DecidableEq, Repr

/-- The transaction store visible to the filter: the set of recorded PSP
references, AdyenTransaction.objects keyed by reference. -/
abbrev TxnStore := List String

/-- AdyenTransaction.objects.filter(reference=...).exists(): a read-only
store operation, returning the store unchanged. -/
def storeHasReference (store : TxnStore) (reference : String) : Bool × TxnStore :=
  (store.contains reference, store)

/-- The platform the gateway is configured against: live when the
action URL contains the substring live, as the facade derives it. -/
def currentPlatform (actionUrl : String) : String :=
  if strContains actionUrl "live" then "live" else "test"

/-- The platform the message claims to originate from: live when the
live POST parameter equals the literal true. -/
def originPlatform (post : Msg) : String :=
  if msgGet? post "live" == some "true" then "live" else "test"

/-- Facade.assess_notification_relevance with the store threaded
explicitly: the only store access the source performs is the exists
query of the dedup step.  Returns the (must_process, must_acknowledge)
pair, or the KeyError of the unguarded pspReference lookup, together
with the store. -/
def assessWithStore (actionUrl : String) (store : TxnStore) (req : HttpRequest) :
    Except GatewayError (Bool × Bool) × TxnStore :=
  if req.method != "POST" then (.ok (false, false), store)
  else
    if currentPlatform actionUrl != originPlatform req.post then (.ok (false, false), store)
    else if msgGet? req.post "eventCode" != some "AUTHORISATION" then (.ok (false, true), store)
    else
      match msgGet? req.post "pspReference" with
      | none => (.error (.keyError "pspReference"), store)
      | some reference =>
        if strContains reference "test_AUTHORISATION" then (.ok (false, true), store)
        else
          let checked := storeHasReference store reference
          if checked.1 then (.ok (false, true), checked.2)
          else (.ok (true, true), checked.2)

/-- The relevance decision alone. -/
def assessNotificationRelevance (actionUrl : String) (store : TxnStore)
    (req : HttpRequest) : Except GatewayError (Bool × Bool) :=
  (assessWithStore actionUrl store req).1

/- ---------------------------------------------------------------- -/
/- adyen/scaffold.py: feedback normalization                          -/
/- ---------------------------------------------------------------- -/

/-- Scaffold.ADYEN_TO_COMMON_PAYMENT_STATUSES: the five-entry mapping
from Adyen statuses to the common scaffold statuses. -/
def ADYEN_TO_COMMON_PAYMENT_STATUSES : List (String × String) :=
  [("AUTHORISED", "ACCEPTED"), ("CANCELLED", "CANCELLED"),
   ("REFUSED", "REFUSED"), ("ERROR", "ERROR"), ("PENDING", "PENDING")]

/-- Scaffold._normalize_feedback: an unguarded dictionary lookup of the
Adyen status in the five-entry mapping, raising KeyError on any other
status string. -/
def normalizeFeedback (feedback : Bool × String × Msg) :
    Except GatewayError (Bool × String × Msg) :=
  match msgGet? ADYEN_TO_COMMON_PAYMENT_STATUSES feedback.2.1 with
  | some common => .ok (feedback.1, common, feedback.2.2)
  | none => .error (.keyError feedback.2.1)

/-- Decidable equality for Except results. -/
def exceptDecEqFun {ε : Type u} {α : Type v} [DecidableEq ε] [DecidableEq α] :
    (a b : Except ε α) → Decidable (a = b)
  | .error a, .error b =>
    if h : a = b then .isTrue (congrArg Except.error h)
    else .isFalse (fun hh => h (Except.error.inj hh))
  | .error _, .ok _ => .isFalse (fun hh => Except.noConfusion hh)
  | .ok _, .error _ => .isFalse (fun hh => Except.noConfusion hh)
  | .ok a, .ok b =>
    if h : a = b then .isTrue (congrArg Except.ok h)
    else .isFalse (fun hh => h (Except.ok.inj hh))

instance {ε : Type u} {α : Type v} [DecidableEq ε] [DecidableEq α] :
    DecidableEq (Except ε α) :=
  exceptDecEqFun

/- ---------------------------------------------------------------- -/
/- Concrete vendor and regression test data                          -/
/- ---------------------------------------------------------------- -/

/-- A SHA-1 gateway configuration with the regression-test skin secret. -/
def cfgSha1 : GatewayConfig :=
  { secretKey := "oscaroscaroscaro",
    actionUrl := "https://test.adyen.com/hpp/select.shtml",
    hmacAlgorithm := .SHA1 }

/-- A SHA-256 gateway configuration with the vendor-documented skin
secret. -/
def cfgSha256 : GatewayConfig :=
  { secretKey := "4468D9782DEF54FCD706C9100C71EC43932B1EBC2ACF6BA0560C05AAA7550C48",
    actionUrl := "https://test.adyen.com/hpp/select.shtml",
    hmacAlgorithm := .SHA256 }

/-- The fixed payment-form field set of the legacy signer regression
test, integer values stringified as str does. -/
def sha1FormFields : Msg :=
  [("merchantReturnData", "123"), ("paymentAmount", "123"),
   ("countryCode", "fr"), ("currencyCode", "EUR"),
   ("sessionValidity", "2014-07-31T17:20:00Z"),
   ("merchantReference", "00000000123"), ("shopperEmail", "test@example.com"),
   ("shopperLocale", "fr"), ("shopperReference", "789"),
   ("resURL", "https://www.example.com/checkout/return/adyen/"),
   ("shipBeforeDate", "2014-08-30"), ("skinCode", "cqQJKZpg"),
   ("merchantAccount", "OscaroFR")]

/-- A correctly signed AUTHORISED payment return under the SHA-1 skin
secret. -/
def authorisedRedirectParams : Msg :=
  [("authResult", "AUTHORISED"),
   ("merchantReference", "WVubjVRFOTPBsLNy33zqliF-vmc:109:00000109"),
   ("merchantReturnData", "13894"),
   ("merchantSig", "99Y+9EiSuT6W4rd/M3zg/wwwRjw="),
   ("paymentMethod", "visa"), ("pspReference", "8814136447235922"),
   ("shopperLocale", "en_GB"), ("skinCode", "4d72uQqA")]

/-- The same payment return with an authResult outside the five statuses
the scaffold can normalize, correctly signed under the SHA-1 skin
secret. -/
def unknownStatusRedirectParams : Msg :=
  [("authResult", "UNKNOWN"),
   ("merchantReference", "WVubjVRFOTPBsLNy33zqliF-vmc:109:00000109"),
   ("merchantReturnData", "13894"),
   ("merchantSig", "YF3IqTDklR7taWZdu7R12SaBh2A="),
   ("paymentMethod", "visa"), ("pspReference", "8814136447235922"),
   ("shopperLocale", "en_GB"), ("skinCode", "4d72uQqA")]

/-- The vendor-documented SHA-256 payment return sample. -/
def sha256RedirectSample : Msg :=
  [("authResult", "AUTHORISED"), ("merchantReference", "SKINTEST-test"),
   ("merchantReturnData", "YourMerchantReturnData"), ("paymentMethod", "visa"),
   ("pspReference", "7914447419663319"), ("shopperLocale", "en_GB"),
   ("skinCode", "314lwMhy"),
   ("merchantSig", "H8hU6s0b12EOAQo0hAZHno8tc7DhIv4r1WF/jjLZUqE=")]

/-- The vendor-documented SHA-256 payment-form sample field set. -/
def sha256FormSample : Msg :=
  [("merchantAccount", "TestMerchant"), ("currencyCode", "EUR"),
   ("paymentAmount", "199"), ("sessionValidity", "2015-06-25T10:31:06Z"),
   ("shipBeforeDate", "2015-07-01"), ("shopperLocale", "en_GB"),
   ("merchantReference", "SKINTEST-1435226439255"), ("skinCode", "X7hsNDWp")]

/-- The authorised payment notification POST of the regression tests. -/
def authorisedNotificationParams : Msg :=
  [("currency", "EUR"), ("eventCode", "AUTHORISATION"), ("live", "false"),
   ("eventDate", "2014-10-18T17:00:00.00Z"), ("merchantAccountCode", "OscaroBE"),
   ("merchantReference", "789:456:00000000123"),
   ("operations", "CANCEL,CAPTURE,REFUND"), ("originalReference", ""),
   ("paymentMethod", "visa"), ("pspReference", "7914120802434172"),
   ("reason", "32853:1111:6/2016"), ("success", "true"), ("value", "21714")]

/-- The authorised payment return with the merchantSig field left out and
every other required field present. -/
def sigLessRedirectParams : Msg :=
  [("authResult", "AUTHORISED"),
   ("merchantReference", "WVubjVRFOTPBsLNy33zqliF-vmc:109:00000109"),
   ("merchantReturnData", "13894"),
   ("paymentMethod", "visa"), ("pspReference", "8814136447235922"),
   ("shopperLocale", "en_GB"), ("skinCode", "4d72uQqA")]

/-- The authorised payment notification with one open-invoice field
appended, as the vendor open-invoice flow would carry. -/
def invoiceNotificationParams : Msg :=
  authorisedNotificationParams ++ [("openinvoicedata.numberOfLines", "1")]

/-- The authorised payment notification with the pspReference field left
out. -/
def noPspNotificationParams : Msg :=
  [("currency", "EUR"), ("eventCode", "AUTHORISATION"), ("live", "false"),
   ("eventDate", "2014-10-18T17:00:00.00Z"), ("merchantAccountCode", "OscaroBE"),
   ("merchantReference", "789:456:00000000123"), ("paymentMethod", "visa"),
   ("reason", "32853:1111:6/2016"), ("success", "true"), ("value", "21714")]

/- ---------------------------------------------------------------- -/
/- Helper lemmas                                                     -/
/- ---------------------------------------------------------------- -/

theorem checkFields_ok_iff (required optional : List String) (params : Msg) :
    checkFields required optional params = .ok () ↔
      ((∀ f ∈ required, msgGetD params f "" ≠ "") ∧
       ∀ k ∈ msgKeys params, k ∈ required ++ optional) := by
  unfold checkFields
  cases hm : firstMissingField required params with
  | some f =>
    unfold firstMissingField at hm
    have hmem := List.mem_of_find?_eq_some hm
    have hpred := List.find?_some hm
    simp only [beq_iff_eq] at hpred
    constructor
    · intro h
      exact absurd h (by simp)
    · rintro ⟨h1, -⟩
      exact absurd hpred (h1 f hmem)
  | none =>
    unfold firstMissingField at hm
    have hnone := List.find?_eq_none.mp hm
    cases hu : firstUnexpectedField (required ++ optional) params with
    | some k =>
      unfold firstUnexpectedField at hu
      have hmem := List.mem_of_find?_eq_some hu
      have hpred := List.find?_some hu
      simp only [Bool.not_eq_eq_eq_not, Bool.not_true,
        decide_eq_false_iff_not] at hpred
      constructor
      · intro h
        exact absurd h (by simp)
      · rintro ⟨-, h2⟩
        exact absurd (h2 k hmem) hpred
    | none =>
      unfold firstUnexpectedField at hu
      have hnone2 := List.find?_eq_none.mp hu
      simp only [true_iff]
      constructor
      · intro f hf
        simpa using hnone f hf
      · intro k hk
        have hpred := hnone2 k hk
        by_contra hmem
        exact hpred (by simp [hmem])

theorem checkFields_missing_of_required (required optional : List String)
    (params : Msg) (f : String) (hf : f ∈ required)
    (hempty : msgGetD params f "" = "") :
    ∃ g, checkFields required optional params = .error (.missingField g) := by
  unfold checkFields
  cases hm : firstMissingField required params with
  | some g => exact ⟨g, rfl⟩
  | none =>
    unfold firstMissingField at hm
    have := List.find?_eq_none.mp hm f hf
    simp [hempty] at this

theorem checkFields_unexpected_mem (required optional : List String)
    (params : Msg) (k : String)
    (h : checkFields required optional params = .error (.unexpectedField k)) :
    k ∈ msgKeys params ∧ k ∉ required ++ optional := by
  unfold checkFields at h
  cases hm : firstMissingField required params with
  | some f => simp [hm] at h
  | none =>
    rw [hm] at h
    cases hu : firstUnexpectedField (required ++ optional) params with
    | none => simp [hu] at h
    | some j =>
      rw [hu] at h
      have hj : j = k := by
        injection h with h
        injection h
      subst hj
      unfold firstUnexpectedField at hu
      have hmem := List.mem_of_find?_eq_some hu
      have hpred := List.find?_some hu
      simp only [Bool.not_eq_eq_eq_not, Bool.not_true,
        decide_eq_false_iff_not] at hpred
      exact ⟨hmem, hpred⟩

theorem sha1Compress_length (h : List Nat) (block : Bytes) :
    (sha1Compress h block).length = 5 := by
  simp [sha1Compress]

theorem foldl_sha1Compress_length (bs : List Bytes) (h : List Nat)
    (hh : h.length = 5) : (bs.foldl sha1Compress h).length = 5 := by
  induction bs generalizing h with
  | nil => simpa using hh
  | cons b bs ih => simpa [List.foldl_cons] using ih _ (sha1Compress_length _ _)

theorem wordsBytes_length (ws : List Nat) :
    (ws.foldr (fun wd acc => be32 wd ++ acc) []).length = 4 * ws.length := by
  induction ws with
  | nil => rfl
  | cons w ws ih =>
    rw [List.foldr_cons, List.length_append, ih]
    simp only [be32, List.length_cons, List.length_nil, List.length_singleton]
    omega

theorem sha1_length (msg : Bytes) : (sha1 msg).length = 20 := by
  unfold sha1
  rw [wordsBytes_length, foldl_sha1Compress_length _ _ (by rfl)]

theorem hmacSha1_length (key msg : Bytes) : (hmacSha1 key msg).length = 20 := by
  unfold hmacSha1 hmacBytes
  exact sha1_length _

theorem b64Alphabet_getD_not_space (i : Nat) :
    isPySpace (b64Alphabet.getD i 'A') = false := by
  rw [List.getD_eq_getElem?_getD]
  cases h : b64Alphabet[i]? with
  | none => rfl
  | some c =>
    have hmem := List.getElem?_mem h
    have hall : ∀ c ∈ b64Alphabet, isPySpace c = false := by decide
    simpa using hall c hmem

theorem mem_four_chars (c x y z w : Char) (h : c ∈ [x, y, z, w]) :
    c = x ∨ c = y ∨ c = z ∨ c = w := by
  simpa using h

theorem b64Groups_not_space (fuel : Nat) :
    ∀ (l : Bytes) (c : Char), c ∈ b64Groups fuel l → isPySpace c = false := by
  induction fuel with
  | zero =>
    intro l c h
    simp [b64Groups] at h
  | succ fuel ih =>
    intro l c h
    cases l with
    | nil => simp [b64Groups] at h
    | cons b rest =>
      rw [b64Groups] at h
      rcases List.mem_append.mp h with h1 | h2
      · split at h1 <;> (try split at h1) <;>
          rcases mem_four_chars _ _ _ _ _ h1 with rfl | rfl | rfl | rfl <;>
          first
            | exact b64Alphabet_getD_not_space _
            | rfl
      · exact ih _ _ h2

theorem b64Groups_ne_nil (fuel : Nat) (l : Bytes) (hl : l ≠ []) :
    b64Groups (fuel + 1) l ≠ [] := by
  cases l with
  | nil => exact absurd rfl hl
  | cons b rest =>
    rw [b64Groups]
    intro hcontra
    rcases List.append_eq_nil.mp hcontra with ⟨h1, -⟩
    split at h1 <;> (try split at h1) <;> simp at h1

theorem dropWhile_eq_self_of_not_space (cs : List Char)
    (hall : ∀ c ∈ cs, isPySpace c = false) : cs.dropWhile isPySpace = cs := by
  cases cs with
  | nil => rfl
  | cons c rest =>
    rw [List.dropWhile_cons, hall c (List.mem_cons_self c rest)]
    simp

theorem stripStr_append_newline (cs : List Char) (hne : cs ≠ [])
    (hall : ∀ c ∈ cs, isPySpace c = false) :
    stripStr (String.mk (cs ++ ['\n'])) = String.mk cs := by
  unfold stripStr
  have h1 : (cs ++ ['\n']).dropWhile isPySpace = cs ++ ['\n'] := by
    cases cs with
    | nil => exact absurd rfl hne
    | cons c rest =>
      rw [List.cons_append, List.dropWhile_cons, hall c (by simp)]
      simp
  rw [show (String.mk (cs ++ ['\n'])).data = cs ++ ['\n'] from rfl, h1,
    List.reverse_append]
  simp only [List.reverse_cons, List.reverse_nil, List.nil_append,
    List.singleton_append]
  rw [List.dropWhile_cons]
  simp only [show isPySpace '\n' = true from rfl, if_true]
  rw [dropWhile_eq_self_of_not_space cs.reverse
    (fun c hc => hall c (List.mem_reverse.mp hc))]
  simp

theorem strAppendEmpty (s : String) : s ++ "" = s := String.append_empty s

theorem encodebytesChunks_nil (fuel : Nat) : encodebytesChunks fuel [] = "" := by
  cases fuel <;> rfl

theorem encodebytes_small (l : Bytes) (hne : l ≠ []) (hlen : l.length ≤ 57) :
    encodebytes l = base64Encode l ++ "\n" := by
  unfold encodebytes
  rw [encodebytesChunks]
  have h1 : l.isEmpty = false := by simpa [List.isEmpty_eq_false] using hne
  rw [h1]
  simp only [Bool.false_eq_true, if_false]
  rw [List.take_of_length_le hlen, List.drop_eq_nil_of_le hlen,
    encodebytesChunks_nil, String.append_assoc, strAppendEmpty]

theorem base64Encode_not_space (l : Bytes) :
    ∀ c ∈ (base64Encode l).data, isPySpace c = false := by
  intro c hc
  exact b64Groups_not_space _ _ _ hc

theorem base64Encode_data_ne_nil (l : Bytes) (hl : l ≠ []) :
    (base64Encode l).data ≠ [] := by
  unfold base64Encode
  exact b64Groups_ne_nil _ _ hl

theorem stripStr_encodebytes_of_short (l : Bytes) (hne : l ≠ [])
    (hlen : l.length ≤ 57) : stripStr (encodebytes l) = base64Encode l := by
  rw [encodebytes_small l hne hlen]
  have h := stripStr_append_newline (base64Encode l).data
    (base64Encode_data_ne_nil l hne) (base64Encode_not_space l)
  have h2 : base64Encode l ++ "\n" = String.mk ((base64Encode l).data ++ ['\n']) := rfl
  rw [h2, h]

theorem validateRedirection_ok_parts (cfg : GatewayConfig) (params : Msg)
    (h : validateRedirection cfg params = .ok ()) :
    checkFields PAYMENT_REDIRECTION_REQUIRED_FIELDS
      PAYMENT_REDIRECTION_OPTIONAL_FIELDS params = .ok () ∧
    msgGetD params "merchantSig" "" ≠ "" ∧
    msgGet? params "merchantSig" = some (redirectionHash cfg params) := by
  unfold validateRedirection at h
  cases hc : checkFields PAYMENT_REDIRECTION_REQUIRED_FIELDS
      PAYMENT_REDIRECTION_OPTIONAL_FIELDS params with
  | error e => simp [hc] at h
  | ok u =>
    cases u
    rw [hc] at h
    by_cases hr : msgGetD params "merchantSig" "" = ""
    · simp [hr] at h
    · refine ⟨rfl, hr, ?_⟩
      by_cases he : redirectionHash cfg params = msgGetD params "merchantSig" ""
      · cases hg : msgGet? params "merchantSig" with
        | none => exact absurd (by simp [msgGetD, hg]) hr
        | some s =>
          have : s = msgGetD params "merchantSig" "" := by simp [msgGetD, hg]
          rw [this, he]
      · simp [hr, he] at h


/- ---------------------------------------------------------------- -/
/- Claim theorems                                                    -/
/- ---------------------------------------------------------------- -/

/-- C1, counterexample: a redirection message whose merchantSig field is
absent (all other required fields present) makes validate raise
MissingFieldException, not InvalidTransactionException as the claim
states. -/
theorem C1_counterexample_missing_sig :
    validateRedirection cfgSha1 sigLessRedirectParams =
      .error (.missingField "merchantSig") ∧
    validateRedirection cfgSha1 sigLessRedirectParams ≠
      .error .invalidTransaction :=
  ⟨by decide, by decide⟩

/-- C1, amended: validate returns successfully exactly when the field
check passes and the supplied merchantSig is non-empty and equals the
recomputed hash; an absent or empty merchantSig is reported by the
required-field check as MissingFieldException, and a well-formed message
whose merchantSig differs from the recomputed hash raises
InvalidTransactionException.  Both algorithm variants are covered by the
configuration argument. -/
theorem C1_redirection_validate (cfg : GatewayConfig) (params : Msg) :
    (validateRedirection cfg params = .ok () ↔
      (checkFields PAYMENT_REDIRECTION_REQUIRED_FIELDS
          PAYMENT_REDIRECTION_OPTIONAL_FIELDS params = .ok () ∧
       msgGetD params "merchantSig" "" ≠ "" ∧
       msgGet? params "merchantSig" = some (redirectionHash cfg params))) ∧
    ((msgGet? params "merchantSig" = none ∨ msgGet? params "merchantSig" = some "") →
      ∃ g, validateRedirection cfg params = .error (.missingField g)) ∧
    (checkFields PAYMENT_REDIRECTION_REQUIRED_FIELDS
        PAYMENT_REDIRECTION_OPTIONAL_FIELDS params = .ok () →
      msgGet? params "merchantSig" ≠ some (redirectionHash cfg params) →
      validateRedirection cfg params = .error .invalidTransaction) := by
  refine ⟨⟨validateRedirection_ok_parts cfg params, ?_⟩, ?_, ?_⟩
  · rintro ⟨hc, hr, he⟩
    have hgd : msgGetD params "merchantSig" "" = redirectionHash cfg params := by
      simp [msgGetD, he]
    have h1 : (msgGetD params "merchantSig" "" == "") = false :=
      beq_eq_false_iff_ne.mpr hr
    have h2 : (redirectionHash cfg params != msgGetD params "merchantSig" "") = false := by
      rw [hgd]
      exact bne_self_eq_false _
    unfold validateRedirection
    rw [hc, h1, h2]
    rfl
  · intro habs
    have hempty : msgGetD params "merchantSig" "" = "" := by
      rcases habs with h | h <;> simp [msgGetD, h]
    obtain ⟨g, hg⟩ := checkFields_missing_of_required
      PAYMENT_REDIRECTION_REQUIRED_FIELDS PAYMENT_REDIRECTION_OPTIONAL_FIELDS
      params "merchantSig" (by decide) hempty
    refine ⟨g, ?_⟩
    unfold validateRedirection
    rw [hg]
  · intro hc hne
    unfold validateRedirection
    rw [hc]
    by_cases hr0 : msgGetD params "merchantSig" "" = ""
    · rw [beq_iff_eq.mpr hr0]
      rfl
    · have hsome : msgGet? params "merchantSig" =
          some (msgGetD params "merchantSig" "") := by
        cases hg : msgGet? params "merchantSig" with
        | none => exact absurd (by simp [msgGetD, hg]) hr0
        | some s => simp [msgGetD, hg]
      have hdiff : redirectionHash cfg params ≠ msgGetD params "merchantSig" "" := by
        intro heq
        exact hne (by rw [hsome, heq])
      rw [bne_iff_ne.mpr hdiff]
      simp

/-- C1, witness: the correctly signed AUTHORISED payment return sample
validates successfully under the SHA-1 configuration. -/
theorem C1_witness_valid_redirect :
    validateRedirection cfgSha1 authorisedRedirectParams = .ok () :=
  (C1_redirection_validate cfgSha1 authorisedRedirectParams).1.mpr
    ⟨by decide, by decide, by decide⟩

/-- C2, counterexample: the plain colon-joined key-then-value canonical
string, applied to the vendor-documented sample payment-form fields with
the documented secret, yields a merchantSig different from the
documented GJ1asjR5VmkvihDJxCd8yE2DGYOKwWwJCBiV3R51NFg=; moreover the
payment-form path under the SHA-256 gateway signs the legacy
no-separator concatenation, which differs from the colon construction. -/
theorem C2_counterexample_plain_colon_join :
    msgGet? (sha256SignSpec cfgSha256.secretKey sha256FormSample) "merchantSig" =
      some "Fu+UwKD5hF6UmAGoUvW4gIZWjKfx3SxbjgRxoIhAScY=" ∧
    "Fu+UwKD5hF6UmAGoUvW4gIZWjKfx3SxbjgRxoIhAScY=" ≠
      "GJ1asjR5VmkvihDJxCd8yE2DGYOKwWwJCBiV3R51NFg=" ∧
    paymentFormHash cfgSha256 sha256FormSample =
      "QVUaa1OpVUP317W6nHo0ULTZ+tWduzchPuMmhGnqOcg=" ∧
    "QVUaa1OpVUP317W6nHo0ULTZ+tWduzchPuMmhGnqOcg=" ≠
      "GJ1asjR5VmkvihDJxCd8yE2DGYOKwWwJCBiV3R51NFg=" ∧
    computeSignatureLegacy PAYMENT_FORM_HASH_KEYS sha256FormSample ≠
      computeSignatureSHA256 PAYMENT_FORM_HASH_KEYS sha256FormSample :=
  ⟨by decide, by decide, by decide, by decide, by decide⟩

/-- C2, amended: the SHA-256 redirection hash in the gateway uses the
colon-joined key-then-value canonical string with the hex-decoded secret
and reproduces the vendor payment-return sample signature, which the
sample message indeed carries; the vendor payment-form sample signature
GJ1asjR5VmkvihDJxCd8yE2DGYOKwWwJCBiV3R51NFg= is reproduced only with
the backslash and colon characters of keys and values escaped. -/
theorem C2_sha256_canonical_constructions :
    redirectionHash cfgSha256 sha256RedirectSample =
      "H8hU6s0b12EOAQo0hAZHno8tc7DhIv4r1WF/jjLZUqE=" ∧
    msgGet? sha256RedirectSample "merchantSig" =
      some "H8hU6s0b12EOAQo0hAZHno8tc7DhIv4r1WF/jjLZUqE=" ∧
    msgGet? (sha256SignEscaped cfgSha256.secretKey sha256FormSample) "merchantSig" =
      some "GJ1asjR5VmkvihDJxCd8yE2DGYOKwWwJCBiV3R51NFg=" :=
  ⟨by decide, by decide, by decide⟩

/-- C4: the legacy compute_hash is base64 of HMAC-SHA1 keyed with the
UTF-8 bytes of the raw secret over the UTF-8 canonical string with
trailing whitespace trimmed, and signing the fixed known field set with
secret oscaroscaroscaro produces the documented merchantSig. -/
theorem C4_sha1_compute_hash :
    (∀ secretKey signature : String,
      sha1ComputeHash secretKey signature =
        base64Encode (hmacSha1 (utf8 secretKey) (utf8 signature))) ∧
    msgGet? (sha1Sign "oscaroscaroscaro" sha1FormFields) "merchantSig" =
      some "kKvzRvx7wiPLrl8t8+owcmMuJZM=" := by
  constructor
  · intro secretKey signature
    unfold sha1ComputeHash
    apply stripStr_encodebytes_of_short
    · have h20 := hmacSha1_length (utf8 secretKey) (utf8 signature)
      intro hnil
      rw [hnil] at h20
      simp at h20
    · rw [hmacSha1_length]
      omega
  · decide

/-- C5, counterexample: a payment notification carrying one
openinvoicedata-prefixed field next to all required fields is rejected
with UnexpectedFieldException, so openinvoicedata fields are not
silently dropped as the claim states. -/
theorem C5_counterexample_openinvoice :
    notificationCheckFields invoiceNotificationParams =
      .error (.unexpectedField "openinvoicedata.numberOfLines") := by
  decide

/-- C5, amended: field validation of a notification succeeds exactly
when, after dropping every field containing additionalData., all
schema-required fields are present and non-empty and every remaining
field lies inside required plus optional; a missing or empty required
field raises MissingFieldException, and any field reported by
UnexpectedFieldException does not contain additionalData. (such fields
are dropped before the check) and lies outside the union; only the
additionalData. marker is dropped, not openinvoicedata. -/
theorem C5_notification_field_validation (params : Msg) :
    (notificationCheckFields params = .ok () ↔
      ((∀ f ∈ PAYMENT_NOTIFICATION_REQUIRED_FIELDS,
          msgGetD (stripAdditionalData params) f "" ≠ "") ∧
       ∀ k ∈ msgKeys (stripAdditionalData params),
         k ∈ PAYMENT_NOTIFICATION_REQUIRED_FIELDS ++
           PAYMENT_NOTIFICATION_OPTIONAL_FIELDS)) ∧
    (∀ f ∈ PAYMENT_NOTIFICATION_REQUIRED_FIELDS,
       msgGetD (stripAdditionalData params) f "" = "" →
       ∃ g, notificationCheckFields params = .error (.missingField g)) ∧
    (∀ k, notificationCheckFields params = .error (.unexpectedField k) →
       strContains k "additionalData." = false ∧
       k ∉ PAYMENT_NOTIFICATION_REQUIRED_FIELDS ++
         PAYMENT_NOTIFICATION_OPTIONAL_FIELDS) := by
  refine ⟨checkFields_ok_iff _ _ _, ?_, ?_⟩
  · intro f hf hempty
    exact checkFields_missing_of_required _ _ _ f hf hempty
  · intro k hk
    have hparts := checkFields_unexpected_mem _ _ _ k hk
    refine ⟨?_, hparts.2⟩
    have hmem := hparts.1
    unfold msgKeys stripAdditionalData at hmem
    rcases List.mem_map.mp hmem with ⟨kv, hkv, hfst⟩
    rcases List.mem_filter.mp hkv with ⟨-, hpred⟩
    rw [← hfst]
    simpa using hpred

/-- C5, witness: the authorised notification sample passes field
validation. -/
theorem C5_witness_valid_notification :
    notificationCheckFields authorisedNotificationParams = .ok () :=
  (C5_notification_field_validation authorisedNotificationParams).1.mpr
    ⟨by decide, by decide⟩

/-- C7: the legacy signer always emits the merchantSig over the full
fixed payment-form key order, emits the delivery-address, billing-address
and shopper signatures exactly when the corresponding sub-group condition
holds on the input, and emits no other field. -/
theorem C7_sha1_sign_emissions (secretKey : String) (fields : Msg) :
    msgGet? (sha1Sign secretKey fields) "merchantSig" =
      some (sha1ComputeHash secretKey
        (computeSignatureLegacy PAYMENT_FORM_HASH_KEYS fields)) ∧
    ("deliveryAddressSig" ∈ msgKeys (sha1Sign secretKey fields) ↔
      anyKeyPresent PAYMENT_DELIVERY_HASH_KEYS fields = true) ∧
    ("billingAddressSig" ∈ msgKeys (sha1Sign secretKey fields) ↔
      anyKeyPresent PAYMENT_BILLING_HASH_KEYS fields = true) ∧
    ("shopperSig" ∈ msgKeys (sha1Sign secretKey fields) ↔
      (anyKeyPresent PAYMENT_SHOPPER_HASH_KEYS fields ||
        msgContains fields "shopperType") = true) ∧
    (∀ k ∈ msgKeys (sha1Sign secretKey fields),
      k ∈ ["merchantSig", "deliveryAddressSig", "billingAddressSig", "shopperSig"]) := by
  unfold sha1Sign
  cases hd : anyKeyPresent PAYMENT_DELIVERY_HASH_KEYS fields <;>
  cases hb : anyKeyPresent PAYMENT_BILLING_HASH_KEYS fields <;>
  cases hs : (anyKeyPresent PAYMENT_SHOPPER_HASH_KEYS fields ||
      msgContains fields "shopperType") <;>
    simp [msgKeys, msgGet?, hd, hb, hs]

/-- C7, witness: the regression field set contains no delivery-address
key, so no deliveryAddressSig is emitted for it. -/
theorem C7_witness_no_delivery_sig :
    "deliveryAddressSig" ∉ msgKeys (sha1Sign "oscaroscaroscaro" sha1FormFields) :=
  fun h =>
    absurd ((C7_sha1_sign_emissions "oscaroscaroscaro" sha1FormFields).2.1.mp h)
      (by decide)

/-- C3: the notification relevance filter returns exactly the claimed
pair in each of the six cases, read off in the order the source checks
them; the pspReference cases are stated for messages that carry the
field (its absence is the subject of the separate KeyError finding). -/
theorem C3_notification_relevance (actionUrl : String) (store : TxnStore)
    (req : HttpRequest) :
    (req.method ≠ "POST" →
      assessNotificationRelevance actionUrl store req = .ok (false, false)) ∧
    (req.method = "POST" →
      (currentPlatform actionUrl ≠ originPlatform req.post →
        assessNotificationRelevance actionUrl store req = .ok (false, false)) ∧
      (currentPlatform actionUrl = originPlatform req.post →
        (msgGet? req.post "eventCode" ≠ some "AUTHORISATION" →
          assessNotificationRelevance actionUrl store req = .ok (false, true)) ∧
        (msgGet? req.post "eventCode" = some "AUTHORISATION" →
          ∀ ref, msgGet? req.post "pspReference" = some ref →
            (strContains ref "test_AUTHORISATION" = true →
              assessNotificationRelevance actionUrl store req = .ok (false, true)) ∧
            (strContains ref "test_AUTHORISATION" = false →
              store.contains ref = true →
              assessNotificationRelevance actionUrl store req = .ok (false, true)) ∧
            (strContains ref "test_AUTHORISATION" = false →
              store.contains ref = false →
              assessNotificationRelevance actionUrl store req = .ok (true, true))))) := by
  constructor
  · intro h
    simp [assessNotificationRelevance, assessWithStore, h]
  · intro hm
    constructor
    · intro hplat
      simp [assessNotificationRelevance, assessWithStore, hm, hplat]
    · intro hplat
      constructor
      · intro hev
        simp [assessNotificationRelevance, assessWithStore, hm, hplat, hev]
      · intro hev ref href
        refine ⟨?_, ?_, ?_⟩
        · intro hmark
          simp [assessNotificationRelevance, assessWithStore, storeHasReference,
            hm, hplat, hev, href, hmark]
        · intro hmark hstore
          have hstoreMem : ref ∈ store := by simpa using hstore
          simp [assessNotificationRelevance, assessWithStore, storeHasReference,
            hm, hplat, hev, href, hmark, hstoreMem]
        · intro hmark hstore
          have hstoreMem : ref ∉ store := by simpa using hstore
          simp [assessNotificationRelevance, assessWithStore, storeHasReference,
            hm, hplat, hev, href, hmark, hstoreMem]

/-- C3, witness: the authorised notification sample on the test platform
with an empty store must be processed and acknowledged. -/
theorem C3_witness_fresh_notification :
    assessNotificationRelevance "https://test.adyen.com/hpp/select.shtml" []
      { method := "POST", post := authorisedNotificationParams } = .ok (true, true) :=
  ((((C3_notification_relevance "https://test.adyen.com/hpp/select.shtml" []
    { method := "POST", post := authorisedNotificationParams }).2 rfl).2
      (by decide)).2 (by decide) "7914120802434172" (by decide)).2.2
        (by decide) (by decide)

/-- C6: processing a validated redirection never raises and is accepted
exactly when authResult equals the literal AUTHORISED, the raw result
string carried forward as the status whatever its value; processing a
notification is accepted exactly when the success field equals the
literal true and is REFUSED otherwise. -/
theorem C6_process_outcomes :
    (∀ (cfg : GatewayConfig) (params : Msg),
      validateRedirection cfg params = .ok () →
      ∃ result, msgGet? params "authResult" = some result ∧
        redirectionProcess params = .ok (result == "AUTHORISED", result, params)) ∧
    (∀ params : Msg,
      notificationProcess params =
        (msgGet? params "success" == some "true",
         if msgGet? params "success" == some "true" then "AUTHORISED" else "REFUSED",
         params)) := by
  constructor
  · intro cfg params h
    obtain ⟨hc, -, -⟩ := validateRedirection_ok_parts cfg params h
    have hreq := (checkFields_ok_iff _ _ params).mp hc
    have hauth : msgGetD params "authResult" "" ≠ "" := hreq.1 "authResult" (by decide)
    cases hg : msgGet? params "authResult" with
    | none => exact absurd (by simp [msgGetD, hg]) hauth
    | some result =>
      refine ⟨result, rfl, ?_⟩
      unfold redirectionProcess
      rw [hg]
  · intro params
    rfl

/-- C6, witness: the correctly signed AUTHORISED payment return sample
processes into an accepted outcome with its raw status. -/
theorem C6_witness_authorised_outcome :
    ∃ result, msgGet? authorisedRedirectParams "authResult" = some result ∧
      redirectionProcess authorisedRedirectParams =
        .ok (result == "AUTHORISED", result, authorisedRedirectParams) :=
  C6_process_outcomes.1 cfgSha1 authorisedRedirectParams (by decide)

/-- C8: the relevance filter leaves the transaction store unchanged, so
running it twice in succession returns the same answer, and on a
matching POST authorisation whose PSP reference is already recorded both
runs answer acknowledge-but-do-not-process. -/
theorem C8_relevance_idempotent (actionUrl : String) (store : TxnStore)
    (req : HttpRequest) :
    (assessWithStore actionUrl store req).2 = store ∧
    assessWithStore actionUrl (assessWithStore actionUrl store req).2 req =
      assessWithStore actionUrl store req ∧
    (req.method = "POST" →
      currentPlatform actionUrl = originPlatform req.post →
      msgGet? req.post "eventCode" = some "AUTHORISATION" →
      ∀ ref, msgGet? req.post "pspReference" = some ref →
        store.contains ref = true →
        assessNotificationRelevance actionUrl store req = .ok (false, true) ∧
        assessNotificationRelevance actionUrl
          (assessWithStore actionUrl store req).2 req = .ok (false, true)) := by
  have hpres : (assessWithStore actionUrl store req).2 = store := by
    unfold assessWithStore storeHasReference
    repeat' split
    all_goals first
      | rfl
      | simp [apply_ite]
  refine ⟨hpres, by rw [hpres], ?_⟩
  intro hm hplat hev ref href hstore
  have hone : assessNotificationRelevance actionUrl store req = .ok (false, true) := by
    cases hmark : strContains ref "test_AUTHORISATION" with
    | true =>
      simp [assessNotificationRelevance, assessWithStore, storeHasReference,
        hm, hplat, hev, href, hmark]
    | false =>
      have hstoreMem : ref ∈ store := by simpa using hstore
      simp [assessNotificationRelevance, assessWithStore, storeHasReference,
        hm, hplat, hev, href, hmark, hstoreMem]
  exact ⟨hone, by rw [hpres]; exact hone⟩

/-- C8, witness: the authorised notification sample with its reference
already recorded is acknowledged but not processed, twice. -/
theorem C8_witness_duplicate_notification :
    assessNotificationRelevance "https://test.adyen.com/hpp/select.shtml"
      ["7914120802434172"]
      { method := "POST", post := authorisedNotificationParams } = .ok (false, true) :=
  ((C8_relevance_idempotent "https://test.adyen.com/hpp/select.shtml"
    ["7914120802434172"]
    { method := "POST", post := authorisedNotificationParams }).2.2 rfl
      (by decide) (by decide) "7914120802434172" (by decide) (by decide)).1

/-- C9: a POST on the matching platform whose eventCode is the
authorisation constant but which carries no pspReference field makes the
relevance filter raise KeyError through its unguarded dictionary lookup
instead of returning a pair. -/
theorem C9_missing_psp_reference (actionUrl : String) (store : TxnStore)
    (req : HttpRequest) (hm : req.method = "POST")
    (hplat : currentPlatform actionUrl = originPlatform req.post)
    (hev : msgGet? req.post "eventCode" = some "AUTHORISATION")
    (href : msgGet? req.post "pspReference" = none) :
    assessNotificationRelevance actionUrl store req =
      .error (.keyError "pspReference") := by
  simp [assessNotificationRelevance, assessWithStore, hm, hplat, hev, href]

/-- C9, witness: the authorised notification sample without its
pspReference field raises KeyError. -/
theorem C9_witness_missing_reference :
    assessNotificationRelevance "https://test.adyen.com/hpp/select.shtml" []
      { method := "POST", post := noPspNotificationParams } =
      .error (.keyError "pspReference") :=
  C9_missing_psp_reference "https://test.adyen.com/hpp/select.shtml" []
    { method := "POST", post := noPspNotificationParams }
    rfl (by decide) (by decide) (by decide)

/-- C10: the scaffold feedback normalization maps exactly the five
statuses AUTHORISED, CANCELLED, REFUSED, ERROR and PENDING and raises
KeyError on every other status string; a correctly signed redirection
with an unknown authResult passes gateway validation and processing yet
crashes in the normalization step of the public scaffold interface. -/
theorem C10_scaffold_normalization :
    (∀ (success : Bool) (details : Msg) (status : String),
      status ∉ ["AUTHORISED", "CANCELLED", "REFUSED", "ERROR", "PENDING"] →
      normalizeFeedback (success, status, details) = .error (.keyError status)) ∧
    (∀ (success : Bool) (details : Msg),
      normalizeFeedback (success, "AUTHORISED", details) =
        .ok (success, "ACCEPTED", details) ∧
      normalizeFeedback (success, "CANCELLED", details) =
        .ok (success, "CANCELLED", details) ∧
      normalizeFeedback (success, "REFUSED", details) =
        .ok (success, "REFUSED", details) ∧
      normalizeFeedback (success, "ERROR", details) =
        .ok (success, "ERROR", details) ∧
      normalizeFeedback (success, "PENDING", details) =
        .ok (success, "PENDING", details)) ∧
    validateRedirection cfgSha1 unknownStatusRedirectParams = .ok () ∧
    redirectionProcess unknownStatusRedirectParams =
      .ok (false, "UNKNOWN", unknownStatusRedirectParams) ∧
    normalizeFeedback (false, "UNKNOWN", unknownStatusRedirectParams) =
      .error (.keyError "UNKNOWN") := by
  refine ⟨?_, fun success details => ⟨rfl, rfl, rfl, rfl, rfl⟩,
    by decide, by decide, by decide⟩
  intro success details status hstat
  simp only [List.mem_cons, List.not_mem_nil, or_false, not_or] at hstat
  obtain ⟨h1, h2, h3, h4, h5⟩ := hstat
  cases hfind : msgGet? ADYEN_TO_COMMON_PAYMENT_STATUSES status with
  | none =>
    unfold normalizeFeedback
    rw [hfind]
  | some c =>
    exfalso
    unfold msgGet? at hfind
    cases hf : List.find? (fun kv => kv.1 == status)
        ADYEN_TO_COMMON_PAYMENT_STATUSES with
    | none =>
      rw [hf] at hfind
      simp at hfind
    | some kv =>
      have hmem := List.mem_of_find?_eq_some hf
      have hpred := List.find?_some hf
      simp only [beq_iff_eq] at hpred
      have hfive : kv.1 = "AUTHORISED" ∨ kv.1 = "CANCELLED" ∨ kv.1 = "REFUSED" ∨
          kv.1 = "ERROR" ∨ kv.1 = "PENDING" := by
        fin_cases hmem <;> simp
      rw [hpred] at hfive
      rcases hfive with h | h | h | h | h
      · exact h1 h
      · exact h2 h
      · exact h3 h
      · exact h4 h
      · exact h5 h

/-- C10, witness: an event status outside the five mapped statuses is
rejected with KeyError by the normalization. -/
theorem C10_witness_unknown_status :
    normalizeFeedback (true, "REPORT_AVAILABLE", []) =
      .error (.keyError "REPORT_AVAILABLE") :=
  C10_scaffold_normalization.1 true [] "REPORT_AVAILABLE" (by decide)
